import Mathlib

/-!
Shallow embedding of the forecast-aggregation core of `src/App.js`
(the "Weather Wizard" screen).

Strings are modelled as `List Char`; JavaScript numbers carried by the
API (temperatures, rain volumes) are finite and modelled as `ℚ`, while
operations whose JavaScript result can be `NaN` or an infinity
(division by zero length, `Math.min`/`Math.max` of no arguments) land
in the extended type `JSNum`.  Unix timestamps and timezone offsets are
`ℤ` seconds.  The host's own timezone (applied by
`Date.prototype.toLocaleTimeString`, which formats an instant in the
host's local zone) is made explicit as a `hostTzOffset : ℤ` parameter.
-/

/-- One entry of the `weather` array of an API response: `weather[0]`
with its `main`, `description` and `icon` fields. -/
structure WeatherEntry where
  main : List Char
  description : List Char
  icon : List Char
deriving DecidableEq, Repr

/-- The `rain` object optionally attached to a forecast item; its only
field used by the code is the `3h` volume, itself optional. -/
structure RainInfo where
  rain3h : Option ℚ
deriving DecidableEq, Repr

/-- One element of `forecast.data.list`: fields read by the code are
`dt`, `main.temp`, `weather[0]` and the optional `rain` object. -/
structure ForecastItem where
  dt : ℤ
  mainTemp : ℚ
  weather0 : WeatherEntry
  rain : Option RainInfo
deriving DecidableEq, Repr

/-- The current-conditions response (`response.data`): fields read by
the code are `name`, `main.temp`, `main.feels_like`, `main.humidity`,
`wind.speed`, `weather[0]` and `dt`. -/
structure CurrentConditions where
  name : List Char
  mainTemp : ℚ
  feelsLike : ℚ
  humidity : ℤ
  windSpeed : ℚ
  weather0 : WeatherEntry
  dt : ℤ
deriving DecidableEq, Repr

/-- A JavaScript number restricted to the values this program can
produce from finite inputs: a finite rational, `NaN`, or a signed
infinity. -/
inductive JSNum where
  | nan : JSNum
  | posInf : JSNum
  | negInf : JSNum
  | fin : ℚ → JSNum
deriving DecidableEq, Repr

/-- JavaScript division `a / n` of a finite numerator by a list length:
`0/0 = NaN`, `a/0 = ±Infinity` by the sign of `a`, otherwise the exact
quotient.  Used to embed line 74's `reduce(...) / list.length`. -/
def jsDivQ (a : ℚ) (n : ℕ) : JSNum :=
  if n = 0 then
    if a = 0 then JSNum.nan else if 0 < a then JSNum.posInf else JSNum.negInf
  else JSNum.fin (a / (n : ℚ))

/-- JavaScript `String.prototype.toLowerCase` on the ASCII fragment the
program compares against (`Char.toLower` per character). -/
def lowerStr (s : List Char) : List Char := s.map Char.toLower

/-- Does `hay` start with `needle`? (auxiliary for `strIncludes`). -/
def listStartsWith : List Char → List Char → Bool
  | _, [] => true
  | [], _ :: _ => false
  | h :: hs, n :: ns => (h == n) && listStartsWith hs ns

/-- JavaScript `hay.includes(needle)`: `needle` occurs contiguously in
`hay`. -/
def strIncludes (hay needle : List Char) : Bool :=
  match hay with
  | [] => needle.isEmpty
  | _ :: rest => listStartsWith hay needle || strIncludes rest needle

/-- The rain predicate, written identically at lines 61–63 (filter in
`getRainTimes`) and lines 80–82 (`willRain`):
`item.weather[0].main.toLowerCase().includes('rain') ||
 item.weather[0].description.toLowerCase().includes('rain')`. -/
def isRainMatch (item : ForecastItem) : Bool :=
  strIncludes (lowerStr item.weather0.main) ("rain".toList) ||
  strIncludes (lowerStr item.weather0.description) ("rain".toList)

/-- `getLocalTime` (lines 52–55): `new Date((timestamp + timezoneOffset)
* 1000)` followed by `toLocaleTimeString([], {hour, minute})`.
`toLocaleTimeString` renders the instant in the HOST's local timezone,
so the displayed clock reading is that of
`timestamp + timezoneOffset + hostTzOffset` seconds since the epoch;
we model the rendered string by its (hour, minute) pair. -/
def getLocalTime (timestamp timezoneOffset hostTzOffset : ℤ) : ℤ × ℤ :=
  let ms : ℤ := (timestamp + timezoneOffset) * 1000
  let displaySec : ℤ := ms / 1000 + hostTzOffset
  (displaySec % 86400 / 3600, displaySec % 3600 / 60)

/-- One rendered rain window: local-time pair and intensity in mm. -/
structure RainTime where
  time : ℤ × ℤ
  intensity : ℚ
deriving DecidableEq, Repr

/-- JavaScript `x || 0` applied to the possibly-missing `rain['3h']`
value: `undefined || 0 = 0` and `0 || 0 = 0` (zero is falsy). -/
def jsOrElseZero (v : Option ℚ) : ℚ :=
  match v with
  | none => 0
  | some x => if x == 0 then 0 else x

/-- Line 67: `item.rain ? item.rain['3h'] || 0 : 0`. -/
def intensityOf (item : ForecastItem) : ℚ :=
  match item.rain with
  | none => 0
  | some r => jsOrElseZero r.rain3h

/-- The point's rain-volume field as exposed by the API: present only
when both the `rain` object and its `3h` key are present. -/
def rainVolOf (item : ForecastItem) : Option ℚ :=
  match item.rain with
  | none => none
  | some r => r.rain3h

/-- The map step of `getRainTimes` (lines 65–68): a matched item
becomes `{time: getLocalTime(item.dt, timezoneOffset), intensity}`. -/
def toRainTime (hostTzOffset timezoneOffset : ℤ) (item : ForecastItem) : RainTime :=
  { time := getLocalTime item.dt timezoneOffset hostTzOffset
    intensity := intensityOf item }

/-- `getRainTimes` (lines 57–69): filter the forecast list by the rain
predicate, then map each match to a rain window.  (The early return for
a missing list is the `weather = null` case, outside this model: here
the forecast list is always a value.) -/
def getRainTimes (hostTzOffset timezoneOffset : ℤ) (list : List ForecastItem) : List RainTime :=
  (list.filter isRainMatch).map (toRainTime hostTzOffset timezoneOffset)

/-- Line 74: `list.reduce((sum, item) => sum + item.main.temp, 0) /
list.length`. -/
def avgTempOf (list : List ForecastItem) : JSNum :=
  jsDivQ (list.foldl (fun sum item => sum + item.mainTemp) 0) list.length

/-- Line 75: `Math.min(...list.map(item => item.main.temp))`;
`Math.min()` of no arguments is `+Infinity`. -/
def minTempOf (list : List ForecastItem) : JSNum :=
  match list.map (fun item => item.mainTemp) with
  | [] => JSNum.posInf
  | t :: ts => JSNum.fin (ts.foldl min t)

/-- Line 76: `Math.max(...list.map(item => item.main.temp))`;
`Math.max()` of no arguments is `-Infinity`. -/
def maxTempOf (list : List ForecastItem) : JSNum :=
  match list.map (fun item => item.mainTemp) with
  | [] => JSNum.negInf
  | t :: ts => JSNum.fin (ts.foldl max t)

/-- The derived summary object (lines 71–86). -/
structure WeatherData where
  location : List Char
  currentTemp : ℚ
  avgTemp : JSNum
  minTemp : JSNum
  maxTemp : JSNum
  humidity : ℤ
  description : List Char
  icon : List Char
  willRain : Bool
  rainTimes : List RainTime
  currentTime : ℤ × ℤ
deriving DecidableEq, Repr

/-- `weatherData` (lines 71–86), as a function of the two parsed
responses, the forecast's `city.timezone` offset, and the host's own
timezone offset (used implicitly by `toLocaleTimeString`). -/
def weatherData (hostTzOffset : ℤ) (current : CurrentConditions)
    (forecastList : List ForecastItem) (timezoneOffset : ℤ) : WeatherData :=
  { location := current.name
    currentTemp := current.mainTemp
    avgTemp := avgTempOf forecastList
    minTemp := minTempOf forecastList
    maxTemp := maxTempOf forecastList
    humidity := current.humidity
    description := current.weather0.description
    icon := current.weather0.icon
    willRain := forecastList.any isRainMatch
    rainTimes := getRainTimes hostTzOffset timezoneOffset forecastList
    currentTime := getLocalTime current.dt timezoneOffset hostTzOffset }

/-- The keyword alternatives of the regular expression
`/typhoon|storm|hurricane|tornado|severe/i` at line 89. -/
def extremeKeywords : List (List Char) :=
  ["typhoon".toList, "storm".toList, "hurricane".toList, "tornado".toList, "severe".toList]

/-- `extremeWeather` (lines 88–89): `weather[0].main === 'Extreme'` or
the case-insensitive regex matches the description (modelled as: the
lowercased description contains one of the lowercase keywords). -/
def extremeWeather (current : CurrentConditions) : Bool :=
  (current.weather0.main == "Extreme".toList) ||
  extremeKeywords.any (fun kw => strIncludes (lowerStr current.weather0.description) kw)

/-- Line 147's render of the description:
`description.charAt(0).toUpperCase() + description.slice(1)`
(on the empty string both halves are empty). -/
def capitalizeDescription (s : List Char) : List Char :=
  match s with
  | [] => []
  | c :: rest => Char.toUpper c :: rest

/-- The whitespace class removed by JavaScript `String.prototype.trim`
(ECMAScript WhiteSpace and LineTerminator code points). -/
def jsWhitespaceChars : List Char :=
  [' ', '\t', '\n', '\r', '\u000B', '\u000C', '\u00A0', '\u1680',
   '\u2000', '\u2001', '\u2002', '\u2003', '\u2004', '\u2005', '\u2006',
   '\u2007', '\u2008', '\u2009', '\u200A', '\u2028', '\u2029', '\u202F',
   '\u205F', '\u3000', '\uFEFF']

/-- Membership in the JavaScript trim whitespace class. -/
def isJsWhitespace (c : Char) : Bool := jsWhitespaceChars.contains c

/-- JavaScript `city.trim()`: drop whitespace from both ends. -/
def jsTrim (s : List Char) : List Char :=
  ((s.dropWhile isJsWhitespace).reverse.dropWhile isJsWhitespace).reverse

/-- The observable outcome of `fetchWeather`'s input guard (lines
23–27): either the empty-input message `'Please enter a city 🌍'` is
set and the function returns without any HTTP request, or the two
gateway requests are issued. -/
inductive FetchOutcome where
  | emptyInput : FetchOutcome
  | issueRequests : FetchOutcome
deriving DecidableEq, Repr

/-- The guard at lines 24–27: `if (!city.trim()) { setError(...);
return; }` — the empty string is the only falsy `trim` result. -/
def fetchWeather (city : List Char) : FetchOutcome :=
  if (jsTrim city).isEmpty then FetchOutcome.emptyInput else FetchOutcome.issueRequests

/-! ### Concrete example data (used by witnesses below) -/

/-- A clear-sky weather entry (matches neither rain nor extreme). -/
def clearEntry : WeatherEntry :=
  { main := "Clear".toList, description := "sunny".toList, icon := "01d".toList }

/-- A rain entry whose `main` field matches the rain predicate. -/
def rainEntry : WeatherEntry :=
  { main := "Rain".toList, description := "light rain".toList, icon := "10d".toList }

/-- A clouds entry whose description (only) matches the rain predicate. -/
def cloudsRainEntry : WeatherEntry :=
  { main := "Clouds".toList, description := "light rain".toList, icon := "10d".toList }

/-- A clouds entry matching neither predicate. -/
def cloudsEntry : WeatherEntry :=
  { main := "Clouds".toList, description := "overcast clouds".toList, icon := "04d".toList }

/-- A snow entry matching neither predicate. -/
def snowEntry : WeatherEntry :=
  { main := "Snow".toList, description := "snow".toList, icon := "13d".toList }

/-- A sample current-conditions value. -/
def exCurrent : CurrentConditions :=
  { name := "Macau".toList, mainTemp := 20, feelsLike := 21, humidity := 60,
    windSpeed := 3, weather0 := clearEntry, dt := 1700000000 }

/-- The spec's 8-point forecast with temperatures 10,12,…,24. -/
def fs8 : List ForecastItem :=
  [ { dt := 0, mainTemp := 10, weather0 := clearEntry, rain := none },
    { dt := 10800, mainTemp := 12, weather0 := clearEntry, rain := none },
    { dt := 21600, mainTemp := 14, weather0 := clearEntry, rain := none },
    { dt := 32400, mainTemp := 16, weather0 := clearEntry, rain := none },
    { dt := 43200, mainTemp := 18, weather0 := clearEntry, rain := none },
    { dt := 54000, mainTemp := 20, weather0 := clearEntry, rain := none },
    { dt := 64800, mainTemp := 22, weather0 := clearEntry, rain := none },
    { dt := 75600, mainTemp := 24, weather0 := clearEntry, rain := none } ]

/-- A forecast point carrying a rain volume of 2.3 mm (`rain['3h']`). -/
def itemRainy : ForecastItem :=
  { dt := 21600, mainTemp := 14, weather0 := rainEntry,
    rain := some { rain3h := some (23/10) } }

/-- A rain-matching point with a `rain` object but no `3h` key. -/
def itemRainyNoVol : ForecastItem :=
  { dt := 54000, mainTemp := 13, weather0 := cloudsRainEntry,
    rain := some { rain3h := none } }

/-- A point with no `rain` object at all. -/
def itemDry : ForecastItem :=
  { dt := 0, mainTemp := 15, weather0 := clearEntry, rain := none }

/-- The spec's order example: 8 points of which exactly the ones at
indices 2 and 5 match the rain predicate. -/
def rainEx : List ForecastItem :=
  [ { dt := 0, mainTemp := 15, weather0 := clearEntry, rain := none },
    { dt := 10800, mainTemp := 15, weather0 := cloudsEntry, rain := none },
    itemRainy,
    { dt := 32400, mainTemp := 14, weather0 := clearEntry, rain := none },
    { dt := 43200, mainTemp := 13, weather0 := cloudsEntry, rain := none },
    itemRainyNoVol,
    { dt := 64800, mainTemp := 12, weather0 := snowEntry, rain := none },
    { dt := 75600, mainTemp := 12, weather0 := clearEntry, rain := none } ]

/-! ### Auxiliary lemmas -/

/-- The `reduce` at line 74 sums the mapped temperatures. -/
theorem foldl_add_mainTemp (l : List ForecastItem) (a : ℚ) :
    l.foldl (fun sum item => sum + item.mainTemp) a
      = a + (l.map (fun item => item.mainTemp)).sum := by
  induction l generalizing a with
  | nil => simp
  | cons x xs ih => simp only [List.foldl_cons, List.map_cons, List.sum_cons, ih]; ring

/-- A left fold by `min` lands on one of the candidates. -/
theorem foldl_min_mem (ts : List ℚ) (t : ℚ) : ts.foldl min t ∈ t :: ts := by
  induction ts generalizing t with
  | nil => simp
  | cons x xs ih =>
    have h := ih (min t x)
    rw [List.foldl_cons]
    rcases List.mem_cons.1 h with h1 | h1
    · rcases min_choice t x with hm | hm
      · rw [h1, hm]; exact List.mem_cons_self _ _
      · rw [h1, hm]; exact List.mem_cons_of_mem _ (List.mem_cons_self _ _)
    · exact List.mem_cons_of_mem _ (List.mem_cons_of_mem _ h1)

/-- A left fold by `min` is a lower bound of all the candidates. -/
theorem foldl_min_le (ts : List ℚ) (t : ℚ) : ∀ x ∈ t :: ts, ts.foldl min t ≤ x := by
  induction ts generalizing t with
  | nil => intro x hx; rw [List.mem_singleton] at hx; simp [hx]
  | cons y ys ih =>
    intro x hx
    rw [List.foldl_cons]
    rcases List.mem_cons.1 hx with h1 | h1
    · subst h1
      exact le_trans (ih (min x y) _ (List.mem_cons_self _ _)) (min_le_left _ _)
    · rcases List.mem_cons.1 h1 with h2 | h2
      · subst h2
        exact le_trans (ih (min t x) _ (List.mem_cons_self _ _)) (min_le_right _ _)
      · exact ih (min t y) x (List.mem_cons_of_mem _ h2)

/-- A left fold by `max` lands on one of the candidates. -/
theorem foldl_max_mem (ts : List ℚ) (t : ℚ) : ts.foldl max t ∈ t :: ts := by
  induction ts generalizing t with
  | nil => simp
  | cons x xs ih =>
    have h := ih (max t x)
    rw [List.foldl_cons]
    rcases List.mem_cons.1 h with h1 | h1
    · rcases max_choice t x with hm | hm
      · rw [h1, hm]; exact List.mem_cons_self _ _
      · rw [h1, hm]; exact List.mem_cons_of_mem _ (List.mem_cons_self _ _)
    · exact List.mem_cons_of_mem _ (List.mem_cons_of_mem _ h1)

/-- A left fold by `max` is an upper bound of all the candidates. -/
theorem le_foldl_max (ts : List ℚ) (t : ℚ) : ∀ x ∈ t :: ts, x ≤ ts.foldl max t := by
  induction ts generalizing t with
  | nil => intro x hx; rw [List.mem_singleton] at hx; simp [hx]
  | cons y ys ih =>
    intro x hx
    rw [List.foldl_cons]
    rcases List.mem_cons.1 hx with h1 | h1
    · subst h1
      exact le_trans (le_max_left _ _) (ih (max x y) _ (List.mem_cons_self _ _))
    · rcases List.mem_cons.1 h1 with h2 | h2
      · subst h2
        exact le_trans (le_max_right _ _) (ih (max t x) _ (List.mem_cons_self _ _))
      · exact ih (max t y) x (List.mem_cons_of_mem _ h2)

/-- `trim` erases the string exactly when it is all whitespace. -/
theorem jsTrim_eq_nil_iff (s : List Char) :
    jsTrim s = [] ↔ ∀ c ∈ s, isJsWhitespace c = true := by
  unfold jsTrim
  rw [List.reverse_eq_nil_iff, List.dropWhile_eq_nil_iff]
  simp only [List.mem_reverse]
  constructor
  · intro h c hc
    have hsplit := List.takeWhile_append_dropWhile (p := isJsWhitespace) (l := s)
    rw [← hsplit] at hc
    rcases List.mem_append.1 hc with h1 | h1
    · exact List.mem_takeWhile_imp h1
    · exact h c h1
  · intro h c hc
    exact h c ((List.dropWhile_sublist isJsWhitespace).subset hc)

/-! ### Claim theorems -/

/-- Claim C1 counter-evidence: the spec claims the rendered hour:minute
is derived solely from `timestamp + timezoneOffset` with no further
host-timezone shift; but `toLocaleTimeString` formats the instant in
the host's zone, so the rendered pair changes with the host timezone
(here: host at UTC+1 renders 01:00 where a UTC host renders 00:00 for
the same timestamp 0 and offset 0). -/
theorem getLocalTime_host_dependent : getLocalTime 0 0 3600 ≠ getLocalTime 0 0 0 := by
  decide

/-- Claim C2: with an empty forecast list the aggregation is total and
silently yields `avgTemp = NaN` (from `0/0`), `minTemp = +Infinity`
(`Math.min()` of no arguments) and `maxTemp = -Infinity` (`Math.max()`
of no arguments), for every current-conditions value and offset. -/
theorem weatherData_empty_forecast (hostTz timezoneOffset : ℤ) (current : CurrentConditions) :
    (weatherData hostTz current [] timezoneOffset).avgTemp = JSNum.nan ∧
    (weatherData hostTz current [] timezoneOffset).minTemp = JSNum.posInf ∧
    (weatherData hostTz current [] timezoneOffset).maxTemp = JSNum.negInf :=
  ⟨rfl, rfl, rfl⟩

/-- Claim C3: `willRain` is true exactly when some forecast point's
lowercased `main` or lowercased `description` contains `"rain"`
(either field alone suffices). -/
theorem willRain_iff_exists_match (hostTz timezoneOffset : ℤ) (current : CurrentConditions)
    (fl : List ForecastItem) :
    (weatherData hostTz current fl timezoneOffset).willRain = true ↔
      ∃ item ∈ fl,
        strIncludes (lowerStr item.weather0.main) ("rain".toList) = true ∨
        strIncludes (lowerStr item.weather0.description) ("rain".toList) = true := by
  simp [weatherData, isRainMatch, List.any_eq_true, Bool.or_eq_true]

/-- Claim C10: `willRain` is true exactly when the rain-windows list
computed from the same forecast list is non-empty (both sides are
driven by the same rain predicate). -/
theorem willRain_iff_rainTimes_ne_nil (hostTz timezoneOffset : ℤ) (current : CurrentConditions)
    (fl : List ForecastItem) :
    (weatherData hostTz current fl timezoneOffset).willRain = true ↔
    (weatherData hostTz current fl timezoneOffset).rainTimes ≠ [] := by
  simp only [weatherData, getRainTimes, ne_eq, List.map_eq_nil_iff, List.filter_eq_nil_iff,
    List.any_eq_true, not_forall]
  constructor
  · rintro ⟨x, hx, hp⟩
    exact ⟨x, hx, by simp [hp]⟩
  · rintro ⟨x, hx, hp⟩
    exact ⟨x, hx, by simpa using hp⟩

/-- Claim C4: `getRainTimes` is the map of the rain-window constructor
over the rain-matching points: the matched sublist keeps the input's
order (it is a `List.Sublist` of the input), contains only matching
points, and contains every matching point; on the 8-point example
where exactly the points at indices 2 and 5 match, the output is the
two windows derived from those points, in that order. -/
theorem getRainTimes_filter_spec (hostTz timezoneOffset : ℤ) (fl : List ForecastItem) :
    getRainTimes hostTz timezoneOffset fl
        = (fl.filter isRainMatch).map (toRainTime hostTz timezoneOffset) ∧
    List.Sublist (fl.filter isRainMatch) fl ∧
    (∀ item ∈ fl.filter isRainMatch, isRainMatch item = true) ∧
    (∀ item ∈ fl, isRainMatch item = true → item ∈ fl.filter isRainMatch) ∧
    getRainTimes hostTz timezoneOffset rainEx
        = [toRainTime hostTz timezoneOffset itemRainy,
           toRainTime hostTz timezoneOffset itemRainyNoVol] :=
  ⟨rfl, List.filter_sublist _,
   fun _ h => (List.mem_filter.1 h).2,
   fun _ h hm => List.mem_filter.2 ⟨h, hm⟩,
   rfl⟩

/-- Claim C5: a rain window's intensity equals the point's rain-volume
field when that field is present (even when the value is the falsy 0),
and is 0 when the `rain` object or its `3h` key is absent. -/
theorem intensity_spec (item : ForecastItem) (v : ℚ) :
    (rainVolOf item = some v → intensityOf item = v) ∧
    (rainVolOf item = none → intensityOf item = 0) := by
  constructor
  · intro h
    cases hr : item.rain with
    | none => simp [rainVolOf, hr] at h
    | some r =>
      cases h3 : r.rain3h with
      | none => simp [rainVolOf, hr, h3] at h
      | some x =>
        have hx : x = v := by simpa [rainVolOf, hr, h3] using h
        subst hx
        by_cases hz : x = 0
        · simp [intensityOf, hr, jsOrElseZero, h3, hz]
        · simp [intensityOf, hr, jsOrElseZero, h3, hz]
  · intro h
    cases hr : item.rain with
    | none => simp [intensityOf, hr]
    | some r =>
      cases h3 : r.rain3h with
      | none => simp [intensityOf, hr, jsOrElseZero, h3]
      | some x => simp [rainVolOf, hr, h3] at h

/-- Claim C5 witness: `rainVolumeMm3h = 2.3` yields intensity `2.3`;
a point with no rain-volume field yields intensity `0`. -/
theorem intensity_spec_witness :
    (rainVolOf itemRainy = some (23/10) ∧ intensityOf itemRainy = 23/10) ∧
    (rainVolOf itemDry = none ∧ intensityOf itemDry = 0) :=
  ⟨⟨rfl, (intensity_spec itemRainy (23/10)).1 rfl⟩,
   ⟨rfl, (intensity_spec itemDry 0).2 rfl⟩⟩

/-- Claim C6: for a non-empty forecast list, `avgTemp` is the finite
arithmetic mean of the temperatures, and `minTemp`/`maxTemp` are finite
values attained by some point and bounding every point below/above. -/
theorem weatherData_temp_stats (hostTz timezoneOffset : ℤ) (current : CurrentConditions)
    (fl : List ForecastItem) (hne : fl ≠ []) :
    (weatherData hostTz current fl timezoneOffset).avgTemp
        = JSNum.fin ((fl.map (fun item => item.mainTemp)).sum / (fl.length : ℚ)) ∧
    (∃ m, (weatherData hostTz current fl timezoneOffset).minTemp = JSNum.fin m ∧
        m ∈ fl.map (fun item => item.mainTemp) ∧
        ∀ x ∈ fl.map (fun item => item.mainTemp), m ≤ x) ∧
    (∃ M, (weatherData hostTz current fl timezoneOffset).maxTemp = JSNum.fin M ∧
        M ∈ fl.map (fun item => item.mainTemp) ∧
        ∀ x ∈ fl.map (fun item => item.mainTemp), x ≤ M) := by
  cases fl with
  | nil => exact absurd rfl hne
  | cons p ps =>
    refine ⟨?_, ?_, ?_⟩
    · show avgTempOf (p :: ps)
          = JSNum.fin (((p :: ps).map (fun item => item.mainTemp)).sum / ((p :: ps).length : ℚ))
      unfold avgTempOf jsDivQ
      rw [if_neg (by simp)]
      rw [foldl_add_mainTemp, zero_add]
    · refine ⟨(ps.map (fun item => item.mainTemp)).foldl min p.mainTemp, ?_, ?_, ?_⟩
      · show minTempOf (p :: ps) = _
        simp [minTempOf]
      · simpa [List.map_cons] using
          foldl_min_mem (ps.map (fun item => item.mainTemp)) p.mainTemp
      · intro x hx
        exact foldl_min_le (ps.map (fun item => item.mainTemp)) p.mainTemp x
          (by simpa [List.map_cons] using hx)
    · refine ⟨(ps.map (fun item => item.mainTemp)).foldl max p.mainTemp, ?_, ?_, ?_⟩
      · show maxTempOf (p :: ps) = _
        simp [maxTempOf]
      · simpa [List.map_cons] using
          foldl_max_mem (ps.map (fun item => item.mainTemp)) p.mainTemp
      · intro x hx
        exact le_foldl_max (ps.map (fun item => item.mainTemp)) p.mainTemp x
          (by simpa [List.map_cons] using hx)

/-- Claim C6 witness: on the 8 temperatures 10,12,…,24 the statistics
are attained and evaluate to avg 17, min 10, max 24. -/
theorem weatherData_temp_stats_witness :
    fs8 ≠ [] ∧
    ((weatherData 0 exCurrent fs8 0).avgTemp = JSNum.fin 17 ∧
     (weatherData 0 exCurrent fs8 0).minTemp = JSNum.fin 10 ∧
     (weatherData 0 exCurrent fs8 0).maxTemp = JSNum.fin 24) ∧
    ((weatherData 0 exCurrent fs8 0).avgTemp
        = JSNum.fin ((fs8.map (fun item => item.mainTemp)).sum / (fs8.length : ℚ)) ∧
     (∃ m, (weatherData 0 exCurrent fs8 0).minTemp = JSNum.fin m ∧
        m ∈ fs8.map (fun item => item.mainTemp) ∧
        ∀ x ∈ fs8.map (fun item => item.mainTemp), m ≤ x) ∧
     (∃ M, (weatherData 0 exCurrent fs8 0).maxTemp = JSNum.fin M ∧
        M ∈ fs8.map (fun item => item.mainTemp) ∧
        ∀ x ∈ fs8.map (fun item => item.mainTemp), x ≤ M)) :=
  ⟨by decide,
   ⟨by norm_num [weatherData, avgTempOf, jsDivQ, fs8],
    by norm_num [weatherData, minTempOf, fs8, min_def],
    by norm_num [weatherData, maxTempOf, fs8, max_def]⟩,
   weatherData_temp_stats 0 0 exCurrent fs8 (by decide)⟩

/-- Claim C7: the extreme-weather flag is raised exactly when `main`
equals `"Extreme"` or the lowercased description contains one of the
keywords typhoon, storm, hurricane, tornado, severe. -/
theorem extremeWeather_iff (current : CurrentConditions) :
    extremeWeather current = true ↔
      current.weather0.main = "Extreme".toList ∨
      ∃ kw ∈ extremeKeywords,
        strIncludes (lowerStr current.weather0.description) kw = true := by
  simp [extremeWeather, List.any_eq_true, Bool.or_eq_true, beq_iff_eq]

/-- Claim C8: the displayed description upper-cases exactly the first
character and keeps the remaining characters unchanged; in particular
"light rain" renders as "Light rain". -/
theorem capitalizeDescription_spec (c : Char) (rest : List Char) :
    capitalizeDescription (c :: rest) = Char.toUpper c :: rest ∧
    capitalizeDescription ("light rain".toList) = "Light rain".toList :=
  ⟨rfl, by decide⟩

/-- Claim C9: a city string consisting only of JavaScript-trim
whitespace (the empty string included) hits the empty-input guard and
issues no gateway request, and any string with a non-whitespace
character passes the guard to the request phase. -/
theorem fetchWeather_guard (city : List Char) :
    (city.all isJsWhitespace = true → fetchWeather city = FetchOutcome.emptyInput) ∧
    (city.all isJsWhitespace = false → fetchWeather city = FetchOutcome.issueRequests) := by
  constructor
  · intro h
    have hnil : jsTrim city = [] :=
      (jsTrim_eq_nil_iff city).2 (by simpa [List.all_eq_true] using h)
    simp [fetchWeather, hnil]
  · intro h
    have hne : jsTrim city ≠ [] := by
      intro hnil
      have hall : city.all isJsWhitespace = true := by
        simpa [List.all_eq_true] using (jsTrim_eq_nil_iff city).1 hnil
      rw [hall] at h
      exact Bool.noConfusion h
    simp [fetchWeather, List.isEmpty_iff, hne]

/-- Claim C9 witness: `""` and `"   "` hit the guard; `"Macau"` does
not. -/
theorem fetchWeather_guard_witness :
    (("".toList.all isJsWhitespace = true) ∧
      fetchWeather ("".toList) = FetchOutcome.emptyInput) ∧
    (("   ".toList.all isJsWhitespace = true) ∧
      fetchWeather ("   ".toList) = FetchOutcome.emptyInput) ∧
    (("Macau".toList.all isJsWhitespace = false) ∧
      fetchWeather ("Macau".toList) = FetchOutcome.issueRequests) :=
  ⟨⟨by decide, (fetchWeather_guard ("".toList)).1 (by decide)⟩,
   ⟨by decide, (fetchWeather_guard ("   ".toList)).1 (by decide)⟩,
   ⟨by decide, (fetchWeather_guard ("Macau".toList)).2 (by decide)⟩⟩
